import Mathlib

/-!
Shallow embedding of the pod sidecar job-execution orchestrator
(`sidecar/handler.py`).  Network effects (websocket frames, HTTP call
outcomes) are modelled as explicit oracle data supplied to the pure
functions; every definition mirrors the corresponding Python function.
-/

namespace Sidecar

/-- Configuration constant `COMFY_HOST` from the source. -/
def COMFY_HOST : String := "127.0.0.1:8188"

/-- Websocket URL built in `_execute_job`:
`f"ws://{COMFY_HOST}/ws?clientId={client_id}"`. -/
def wsUrlOf (clientId : String) : String :=
  "ws://" ++ COMFY_HOST ++ "/ws?clientId=" ++ clientId

/-- Python string interpolation of an optional value: `None` prints as
"None", a string prints as itself (models `f"...{data.get('node_id')}..."`). -/
def pyStr : Option String → String
  | none => "None"
  | some s => s

/-- Decoded `data` object of a websocket message.  A field that is JSON
`null` or absent is `none` (Python `dict.get` returns `None` in both
cases). -/
structure MsgData where
  node : Option String
  prompt_id : Option String
  node_id : Option String
  node_type : Option String
  exception_message : Option String
deriving DecidableEq

/-- The `{}` default used by `msg.get("data", {})`. -/
def emptyData : MsgData := ⟨none, none, none, none, none⟩

/-- Decoded JSON object message from the websocket.  `type` is the
`type` discriminator (absent when the JSON object has no such key). -/
structure Msg where
  type : Option String
  data : Option MsgData
deriving DecidableEq

/-- The `data` payload of a message after applying the `{}` default of
`msg.get("data", {})`. -/
def dataOf (m : Msg) : MsgData := m.data.getD emptyData

/-- Outcome of one reconnection attempt of `_reconnect_websocket`:
the liveness probe `requests.get(...)` raises (`probeFail`), the probe
succeeds but `new_ws.connect` raises (`connectFail`), or both succeed
(`connectOk`). -/
inductive AttemptOutcome where
  | probeFail
  | connectFail
  | connectOk
deriving DecidableEq

/-- Result of `_reconnect_websocket`: a fresh websocket connected to the
given URL, or one of the two raised
`WebSocketConnectionClosedException`s. -/
inductive ReconnectResult where
  | ok (url : String)
  | unreachable
  | exhausted
deriving DecidableEq

/-- Loop body of `_reconnect_websocket`: `fuel` remaining iterations of
`for attempt in range(N)`, `i` the current attempt index into the
outcome oracle. -/
def reconnectGo (url : String) (oc : Nat → AttemptOutcome) : Nat → Nat → ReconnectResult
  | 0, _ => .exhausted
  | fuel + 1, i =>
    match oc i with
    | .probeFail => .unreachable
    | .connectFail => reconnectGo url oc fuel (i + 1)
    | .connectOk => .ok url

/-- `_reconnect_websocket(ws_url, e)`: up to `N = WEBSOCKET_RECONNECT_ATTEMPTS`
attempts; each attempt first probes the engine root URL (probe failure
raises "ComfyUI unreachable during reconnect" immediately), then tries to
connect a fresh websocket on the same `ws_url`; exhausting the bound
raises the terminal failure. -/
def reconnectWebsocket (N : Nat) (url : String) (oc : Nat → AttemptOutcome) : ReconnectResult :=
  reconnectGo url oc N 0

/-- Message of the exception raised when the liveness probe fails during
reconnection. -/
def unreachableMsg : String := "ComfyUI unreachable during reconnect"

/-- Message of the exception raised after exhausting all reconnect
attempts. -/
def exhaustedMsg (n : Nat) : String :=
  "Failed to reconnect after " ++ toString n ++ " attempts"

/-- One item received from the websocket stream in `_monitor_execution`:
a non-string frame (skipped by the `isinstance` check), a string that
`json.loads` rejects, a decoded JSON object, a receive timeout, or a
connection-closed exception together with the outcome oracle for the
reconnection episode it triggers. -/
inductive Frame where
  | binary
  | badJson
  | msg (m : Msg)
  | timeout
  | closed (oc : Nat → AttemptOutcome)

/-- Error entry recorded for a matching `execution_error` event:
`f"Node {data.get('node_id')} ({data.get('node_type')}): {data.get('exception_message')}"`. -/
def errEntry (d : MsgData) : String :=
  "Node " ++ pyStr d.node_id ++ " (" ++ pyStr d.node_type ++ "): " ++
    pyStr d.exception_message

/-- What the loop body of `_monitor_execution` does with one decoded
message. -/
inductive StepAction where
  | complete
  | failJob (entry : String)
  | skip
deriving DecidableEq

/-- Classification of a decoded message by `_monitor_execution`:
an "executing" event with `node is None` and matching `prompt_id`
returns success; an "execution_error" event with matching `prompt_id`
records one error entry and returns failure; everything else is
ignored. -/
def classifyMsg (prompt_id : String) (m : Msg) : StepAction :=
  if m.type = some "executing" then
    if (dataOf m).node = none ∧ (dataOf m).prompt_id = some prompt_id then
      .complete
    else
      .skip
  else if m.type = some "execution_error" then
    if (dataOf m).prompt_id = some prompt_id then
      .failJob (errEntry (dataOf m))
    else
      .skip
  else
    .skip

/-- Result of `_monitor_execution`: a normal return `(success, errors)`,
a propagated `WebSocketConnectionClosedException` from reconnection, or
`pending` when the modelled frame list runs out (in the source the loop
would block on `ws.recv()` waiting for more frames). -/
inductive MonitorResult where
  | done (success : Bool) (errors : List String)
  | connClosed (emsg : String)
  | pending
deriving DecidableEq

/-- `_monitor_execution(ws, ws_url, prompt_id)` over a finite list of
incoming frames, with `errors` the accumulator list and `N` the
configured `WEBSOCKET_RECONNECT_ATTEMPTS`. -/
def monitorExecution (N : Nat) (wsUrl prompt_id : String) (errors : List String) :
    List Frame → MonitorResult
  | [] => .pending
  | .binary :: rest => monitorExecution N wsUrl prompt_id errors rest
  | .badJson :: rest => monitorExecution N wsUrl prompt_id errors rest
  | .timeout :: rest => monitorExecution N wsUrl prompt_id errors rest
  | .closed oc :: rest =>
    match reconnectWebsocket N wsUrl oc with
    | .ok _ => monitorExecution N wsUrl prompt_id errors rest
    | .unreachable => .connClosed unreachableMsg
    | .exhausted => .connClosed (exhaustedMsg N)
  | .msg m :: rest =>
    match classifyMsg prompt_id m with
    | .complete => .done true errors
    | .failJob e => .done false (errors ++ [e])
    | .skip => monitorExecution N wsUrl prompt_id errors rest

/-- Outcome of one POST attempt inside `_fire_callback`: an HTTP
response with a status code, or a raised exception. -/
inductive CallbackAttempt where
  | response (status : Nat)
  | exception (emsg : String)
deriving DecidableEq

/-- Observable outcome of `_fire_callback`: delivered on the (0-based)
attempt index, or all attempts exhausted (logged, nothing raised). -/
inductive CallbackOutcome where
  | delivered (attempt : Nat)
  | exhausted
deriving DecidableEq

/-- Whether one POST attempt counts as delivery: a response with
`status_code < 300` (statuses at or above the threshold retry, as do
exceptions). -/
def attemptOk : CallbackAttempt → Bool
  | .response s => s < 300
  | .exception _ => false

/-- Loop body of `_fire_callback`: `fuel` remaining iterations of
`for attempt in range(3)`, `i` the current attempt index into the
outcome oracle. -/
def fireCallbackGo (cb : Nat → CallbackAttempt) : Nat → Nat → CallbackOutcome
  | 0, _ => .exhausted
  | fuel + 1, i =>
    if attemptOk (cb i) then .delivered i else fireCallbackGo cb fuel (i + 1)

/-- `_fire_callback(url, payload, label)`: up to 3 POST attempts with a
fixed delay, returning at the first response whose status is below 300;
exhaustion is logged and the function returns normally (never raises). -/
def fireCallback (cb : Nat → CallbackAttempt) : CallbackOutcome :=
  fireCallbackGo cb 3 0

/-- One input asset as staged by `_upload_images` (an item of
`req.images`) or `_download_and_upload_files` (an item of
`req.download_urls`): the name used in error messages, and the outcome
of the whole try-block for that item (`none` = success, `some e` = the
exception message raised while processing it). -/
structure StagedItem where
  name : String
  outcome : Option String
deriving DecidableEq

/-- Result dict of a staging stage:
`{"status": "error" if errors else "success", "details": errors}`. -/
structure StageResult where
  status : String
  details : List String
deriving DecidableEq

/-- Error list accumulated by the loop of `_upload_images`: each item is
processed inside its own try-block; a failing item appends
`f"Failed to upload {image.get('name')}: {e}"` and the loop continues. -/
def uploadImagesErrors : List StagedItem → List String
  | [] => []
  | it :: rest =>
    match it.outcome with
    | none => uploadImagesErrors rest
    | some e => ("Failed to upload " ++ it.name ++ ": " ++ e) :: uploadImagesErrors rest

/-- `_upload_images(images)`. -/
def uploadImages (items : List StagedItem) : StageResult :=
  { status := if uploadImagesErrors items = [] then "success" else "error",
    details := uploadImagesErrors items }

/-- Error list accumulated by the loop of `_download_and_upload_files`:
each item is processed inside its own try-block; a failing item appends
`f"Failed to process {item.get('name')}: {e}"` and the loop continues. -/
def downloadUploadErrors : List StagedItem → List String
  | [] => []
  | it :: rest =>
    match it.outcome with
    | none => downloadUploadErrors rest
    | some e => ("Failed to process " ++ it.name ++ ": " ++ e) :: downloadUploadErrors rest

/-- `_download_and_upload_files(download_urls)`. -/
def downloadAndUploadFiles (items : List StagedItem) : StageResult :=
  { status := if downloadUploadErrors items = [] then "success" else "error",
    details := downloadUploadErrors items }

/-- The extension set routing a staged download to the video upload
endpoint in `_download_and_upload_files`. -/
def videoExts : List String := [".mp4", ".mov", ".avi", ".mkv", ".webm"]

/-- Endpoint selection of `_download_and_upload_files` by lowercased
filename extension. -/
def stagingEndpoint (filenameLower : String) : String :=
  if videoExts.any (fun e => filenameLower.endsWith e) then
    "http://" ++ COMFY_HOST ++ "/upload/video"
  else
    "http://" ++ COMFY_HOST ++ "/upload/image"

/-- The standard base64 alphabet used by Python's `base64.b64encode`. -/
def b64Alphabet : List Char :=
  ['A', 'B', 'C', 'D', 'E', 'F', 'G', 'H', 'I', 'J', 'K', 'L', 'M',
   'N', 'O', 'P', 'Q', 'R', 'S', 'T', 'U', 'V', 'W', 'X', 'Y', 'Z',
   'a', 'b', 'c', 'd', 'e', 'f', 'g', 'h', 'i', 'j', 'k', 'l', 'm',
   'n', 'o', 'p', 'q', 'r', 's', 't', 'u', 'v', 'w', 'x', 'y', 'z',
   '0', '1', '2', '3', '4', '5', '6', '7', '8', '9', '+', '/']

/-- Alphabet character of a 6-bit value. -/
def sextetChar (n : Nat) : Char := b64Alphabet.getD n 'A'

/-- Inverse lookup: alphabet index of a character, `none` for characters
outside the alphabet. -/
def charSextet (c : Char) : Option Nat :=
  b64Alphabet.findIdx? (fun x => x = c)

/-- Base64 encoding of a byte list (each element `< 256`), as performed
by `base64.b64encode`: 3-byte groups become 4 alphabet characters, a
trailing group of 2 or 1 bytes is padded with one or two `=`. -/
def b64encodeBytes : List Nat → List Char
  | a :: b :: c :: rest =>
    sextetChar (a / 4) :: sextetChar (a % 4 * 16 + b / 16) ::
      sextetChar (b % 16 * 4 + c / 64) :: sextetChar (c % 64) :: b64encodeBytes rest
  | [a, b] => [sextetChar (a / 4), sextetChar (a % 4 * 16 + b / 16), sextetChar (b % 16 * 4), '=']
  | [a] => [sextetChar (a / 4), sextetChar (a % 4 * 16), '=', '=']
  | [] => []

/-- Base64 decoding (strict): 4-character groups, the final group may
carry one or two `=` padding characters; yields the byte list or `none`
on malformed input. -/
def b64decodeChars : List Char → Option (List Nat)
  | [] => some []
  | c1 :: c2 :: c3 :: c4 :: rest =>
    if c3 = '=' ∧ c4 = '=' ∧ rest = [] then
      match charSextet c1, charSextet c2 with
      | some s1, some s2 => some [s1 * 4 + s2 / 16]
      | _, _ => none
    else if c4 = '=' ∧ rest = [] then
      match charSextet c1, charSextet c2, charSextet c3 with
      | some s1, some s2, some s3 => some [s1 * 4 + s2 / 16, s2 % 16 * 16 + s3 / 4]
      | _, _, _ => none
    else
      match charSextet c1, charSextet c2, charSextet c3, charSextet c4 with
      | some s1, some s2, some s3, some s4 =>
        Option.map
          (fun bs => (s1 * 4 + s2 / 16) :: (s2 % 16 * 16 + s3 / 4) :: (s3 % 4 * 64 + s4) :: bs)
          (b64decodeChars rest)
      | _, _, _, _ => none
  | _ => none

/-- One caller-supplied output target (an item of `req.upload_urls`). -/
structure UploadTarget where
  name : String
  url : String
deriving DecidableEq

/-- Lookup in the dict comprehension
`{item["name"]: item["url"] for item in (upload_urls or [])}`:
a later item with the same name overwrites an earlier one. -/
def uploadMapGet (targets : List UploadTarget) (n : String) : Option String :=
  match targets with
  | [] => none
  | t :: rest =>
    match uploadMapGet rest n with
    | some u => some u
    | none => if t.name = n then some t.url else none

/-- One `file_info` entry of the engine's output manifest, together
with the oracle outcomes of the two network calls `_process_outputs`
may make for it: fetching its bytes from the `/view` endpoint
(`fetchResult`) and PUTting them to a matching upload target
(`uploadResult`; `none` = success, `some e` = raised `e`). -/
structure FileInfo where
  filename : Option String
  subfolder : String
  ftype : Option String
  fetchResult : Except String (List Nat)
  uploadResult : Option String

/-- One dict appended to `output_data` by `_process_outputs`: either
`{"filename": .., "type": "uploaded"}` (no data key) or
`{"filename": .., "type": "base64", "data": <encoded bytes>}`. -/
structure OutputRecord where
  filename : String
  rtype : String
  data : Option (List Char)
deriving DecidableEq

/-- Content type chosen for the PUT to an upload target in
`_process_outputs`. -/
def uploadContentType (filename : String) : String :=
  if filename.endsWith ".mp4" ∨ filename.endsWith ".mov" ∨ filename.endsWith ".avi" then
    "video/mp4"
  else
    "image/png"

/-- Inner loop body of `_process_outputs` for one `file_info`:
skip files without a (truthy) filename and files of type "temp"; fetch
bytes (a fetch failure records an error and continues); the
`if upload_url:` truthiness test sends the file to the PUT branch only
when the map lookup yields a non-empty URL (recorded as `uploaded`, or
as an error entry if the PUT raises); an absent or empty-string URL
inlines the bytes base64-encoded.  Returns (records appended, errors
appended). -/
def processFileInfo (targets : List UploadTarget) (fi : FileInfo) :
    List OutputRecord × List String :=
  match fi.filename with
  | none => ([], [])
  | some fn =>
    if fn = "" then ([], [])
    else if fi.ftype = some "temp" then ([], [])
    else
      match fi.fetchResult with
      | .error e => ([], ["Failed to fetch " ++ fn ++ ": " ++ e])
      | .ok bytes =>
        match uploadMapGet targets fn with
        | some u =>
          if u = "" then ([⟨fn, "base64", some (b64encodeBytes bytes)⟩], [])
          else
            match fi.uploadResult with
            | none => ([⟨fn, "uploaded", none⟩], [])
            | some e => ([], ["Failed to upload " ++ fn ++ ": " ++ e])
        | none => ([⟨fn, "base64", some (b64encodeBytes bytes)⟩], [])

/-- Loop of `_process_outputs` over one media list of a node output. -/
def processFileList (targets : List UploadTarget) : List FileInfo → List OutputRecord × List String
  | [] => ([], [])
  | fi :: rest =>
    ((processFileInfo targets fi).1 ++ (processFileList targets rest).1,
     (processFileInfo targets fi).2 ++ (processFileList targets rest).2)

/-- One node's output in the history manifest: the lists under the keys
"videos", "gifs" and "images" (`node_output.get(key, [])`). -/
structure NodeOutput where
  videos : List FileInfo
  gifs : List FileInfo
  images : List FileInfo

/-- Processing of one node output: the keys are visited in the fixed
order videos, gifs, images. -/
def processNodeOutput (targets : List UploadTarget) (no : NodeOutput) :
    List OutputRecord × List String :=
  ((processFileList targets no.videos).1 ++ (processFileList targets no.gifs).1 ++
     (processFileList targets no.images).1,
   (processFileList targets no.videos).2 ++ (processFileList targets no.gifs).2 ++
     (processFileList targets no.images).2)

/-- Loop of `_process_outputs` over the nodes of the manifest (dict
iteration in insertion order, modelled as a list of key-value pairs). -/
def processNodeList (targets : List UploadTarget) :
    List (String × NodeOutput) → List OutputRecord × List String
  | [] => ([], [])
  | (_, no) :: rest =>
    ((processNodeOutput targets no).1 ++ (processNodeList targets rest).1,
     (processNodeOutput targets no).2 ++ (processNodeList targets rest).2)

/-- `_process_outputs(outputs, upload_urls)`: builds the upload map from
`upload_urls or []` and walks the manifest, returning
`(output_data, errors)`. -/
def processOutputs (outputs : List (String × NodeOutput))
    (upload_urls : Option (List UploadTarget)) : List OutputRecord × List String :=
  processNodeList (upload_urls.getD []) outputs

/-- The fields of a `RunRequest` that `_execute_job` consumes
(workflow, callback URL and API key are opaque to the orchestration
logic modelled here). -/
structure RunReq where
  images : Option (List StagedItem)
  download_urls : Option (List StagedItem)
  upload_urls : Option (List UploadTarget)

/-- Python truthiness of an optional list (`if req.images:`):
true only for a present, non-empty list. -/
def truthy {α : Type} : Option (List α) → Bool
  | some (_ :: _) => true
  | _ => false

/-- Terminal job result dict produced by `_execute_job` (keys that a
given branch does not set are `none`). -/
structure JobResult where
  status : String
  error : Option String
  details : Option (List String)
  images : Option (List OutputRecord)
  warnings : Option (List String)
deriving DecidableEq

/-- A failure result `{"status": "failed", "error": err}`. -/
def failedResult (err : String) : JobResult :=
  ⟨"failed", some err, none, none, none⟩

/-- A failure result
`{"status": "failed", "error": err, "details": details}`. -/
def failedWith (err : String) (details : List String) : JobResult :=
  ⟨"failed", some err, some details, none, none⟩

/-- Oracle for the external effects of one `_execute_job` run:
the `_check_server` outcome, the generated `client_id`, the
`_queue_workflow` outcome (`Except.error` = raised exception message,
`Except.ok` = the response's optional `prompt_id` field), the websocket
frame stream, and the `_get_history` outcome (`Except.error` = raised,
`.ok none` = prompt id absent from the history dict, `.ok (some outs)` =
`history[prompt_id].get("outputs", {})` as a key-value list). -/
structure ExecEnv where
  serverUp : Bool
  clientId : String
  queueResult : Except String (Option String)
  frames : List Frame
  historyOutputs : Except String (Option (List (String × NodeOutput)))

/-- `_execute_job(job_id, req)` with `N` the configured
`WEBSOCKET_RECONNECT_ATTEMPTS`.  Returns `none` when the monitoring
loop would block forever waiting for further frames (the `pending`
case); otherwise the terminal result dict.  The scratch-directory
cleanup has no observable effect on the result and is omitted. -/
def executeJob (N : Nat) (req : RunReq) (env : ExecEnv) : Option JobResult :=
  if env.serverUp = false then some (failedResult "ComfyUI not reachable")
  else if truthy req.images = true ∧ (uploadImages (req.images.getD [])).status = "error" then
    some (failedWith "Image upload failed" (uploadImages (req.images.getD [])).details)
  else if truthy req.download_urls = true ∧
      (downloadAndUploadFiles (req.download_urls.getD [])).status = "error" then
    some (failedWith "File download/upload failed"
      (downloadAndUploadFiles (req.download_urls.getD [])).details)
  else
    match env.queueResult with
    | .error e => some (failedResult e)
    | .ok none => some (failedResult "No prompt_id in response")
    | .ok (some pid) =>
      if pid = "" then some (failedResult "No prompt_id in response")
      else
        match monitorExecution N (wsUrlOf env.clientId) pid [] env.frames with
        | .pending => none
        | .connClosed e => some (failedResult e)
        | .done execDone execErrors =>
          if execDone = false ∧ execErrors = [] then
            some (failedResult "Execution monitoring exited unexpectedly")
          else
            match env.historyOutputs with
            | .error e => some (failedResult e)
            | .ok none => some (failedResult ("Prompt " ++ pid ++ " not found in history"))
            | .ok (some outs) =>
              if (processOutputs outs req.upload_urls).1 = [] ∧
                  execErrors ++ (processOutputs outs req.upload_urls).2 ≠ [] then
                some (failedWith "Job produced no output"
                  (execErrors ++ (processOutputs outs req.upload_urls).2))
              else
                some { status := "completed", error := none, details := none,
                       images := some (processOutputs outs req.upload_urls).1,
                       warnings :=
                         if execErrors ++ (processOutputs outs req.upload_urls).2 = [] then none
                         else some (execErrors ++ (processOutputs outs req.upload_urls).2) }

/-- `_run_job(job_id, req)`: compute the terminal result, then fire the
job callback exactly once with it; the callback outcome is never fed
back into the result.  When `_execute_job` would never return (`none`),
no callback fires. -/
def runJob (N : Nat) (req : RunReq) (env : ExecEnv) (cb : Nat → CallbackAttempt) :
    Option JobResult × Option CallbackOutcome :=
  match executeJob N req env with
  | none => (none, none)
  | some r => (some r, some (fireCallback cb))

/-! Helper lemmas about the event classifier and the monitoring loop. -/

theorem classify_complete_iff (pid : String) (m : Msg) :
    classifyMsg pid m = .complete ↔
      m.type = some "executing" ∧ (dataOf m).node = none ∧
        (dataOf m).prompt_id = some pid := by
  unfold classifyMsg
  split_ifs with h1 h2 h3 h4 <;> simp_all

theorem classify_of_error (pid : String) (m : Msg)
    (h1 : m.type = some "execution_error") (h2 : (dataOf m).prompt_id = some pid) :
    classifyMsg pid m = .failJob (errEntry (dataOf m)) := by
  simp [classifyMsg, h1, h2]

theorem classify_skip_of_node (pid : String) (m : Msg) (nv : String)
    (h1 : m.type = some "executing") (h2 : (dataOf m).node = some nv) :
    classifyMsg pid m = .skip := by
  simp [classifyMsg, h1, h2]

theorem classify_skip_of_prompt_ne (pid : String) (m : Msg)
    (h : (dataOf m).prompt_id ≠ some pid) :
    classifyMsg pid m = .skip := by
  unfold classifyMsg
  split_ifs <;> simp_all

theorem monitor_skip_msg (N : Nat) (url pid : String) (errors : List String)
    (m : Msg) (rest : List Frame) (h : classifyMsg pid m = .skip) :
    monitorExecution N url pid errors (.msg m :: rest) =
      monitorExecution N url pid errors rest := by
  simp [monitorExecution, h]

theorem monitor_done_false_ne_nil (frames : List Frame) :
    ∀ (N : Nat) (url pid : String) (errors errs : List String),
      monitorExecution N url pid errors frames = .done false errs → errs ≠ [] := by
  induction frames with
  | nil =>
    intro N url pid errors errs h
    simp [monitorExecution] at h
  | cons f rest ih =>
    intro N url pid errors errs h
    cases f with
    | binary => exact ih N url pid errors errs (by simpa [monitorExecution] using h)
    | badJson => exact ih N url pid errors errs (by simpa [monitorExecution] using h)
    | timeout => exact ih N url pid errors errs (by simpa [monitorExecution] using h)
    | closed oc =>
      simp only [monitorExecution] at h
      split at h
      · exact ih N url pid errors errs h
      · simp at h
      · simp at h
    | msg m =>
      simp only [monitorExecution] at h
      split at h
      · simp at h
      · simp only [MonitorResult.done.injEq] at h
        intro hnil
        rw [hnil] at h
        simp at h
      · exact ih N url pid errors errs h

theorem monitor_result_origin (frames : List Frame) :
    ∀ (N : Nat) (url pid : String) (errors : List String),
      (∀ errs, monitorExecution N url pid errors frames = .done true errs →
        ∃ m, Frame.msg m ∈ frames ∧ classifyMsg pid m = .complete)
      ∧ (∀ errs, monitorExecution N url pid errors frames = .done false errs →
        ∃ m e, Frame.msg m ∈ frames ∧ classifyMsg pid m = .failJob e)
      ∧ (∀ s, monitorExecution N url pid errors frames = .connClosed s →
        ∃ oc, Frame.closed oc ∈ frames ∧
          reconnectWebsocket N url oc ≠ ReconnectResult.ok url) := by
  induction frames with
  | nil =>
    intro N url pid errors
    refine ⟨?_, ?_, ?_⟩ <;> intro x h <;> simp [monitorExecution] at h
  | cons f rest ih =>
    intro N url pid errors
    refine ⟨?_, ?_, ?_⟩ <;> intro x h
    · cases f with
      | binary =>
        obtain ⟨m, hm, hc⟩ := (ih N url pid errors).1 x (by simpa [monitorExecution] using h)
        exact ⟨m, List.mem_cons_of_mem _ hm, hc⟩
      | badJson =>
        obtain ⟨m, hm, hc⟩ := (ih N url pid errors).1 x (by simpa [monitorExecution] using h)
        exact ⟨m, List.mem_cons_of_mem _ hm, hc⟩
      | timeout =>
        obtain ⟨m, hm, hc⟩ := (ih N url pid errors).1 x (by simpa [monitorExecution] using h)
        exact ⟨m, List.mem_cons_of_mem _ hm, hc⟩
      | closed oc =>
        simp only [monitorExecution] at h
        split at h
        · obtain ⟨m, hm, hc⟩ := (ih N url pid errors).1 x h
          exact ⟨m, List.mem_cons_of_mem _ hm, hc⟩
        · simp at h
        · simp at h
      | msg m =>
        simp only [monitorExecution] at h
        split at h
        · rename_i hc
          exact ⟨m, List.mem_cons_self _ _, hc⟩
        · simp at h
        · rename_i hc
          obtain ⟨m2, hm, hc2⟩ := (ih N url pid errors).1 x h
          exact ⟨m2, List.mem_cons_of_mem _ hm, hc2⟩
    · cases f with
      | binary =>
        obtain ⟨m, e, hm, hc⟩ := (ih N url pid errors).2.1 x (by simpa [monitorExecution] using h)
        exact ⟨m, e, List.mem_cons_of_mem _ hm, hc⟩
      | badJson =>
        obtain ⟨m, e, hm, hc⟩ := (ih N url pid errors).2.1 x (by simpa [monitorExecution] using h)
        exact ⟨m, e, List.mem_cons_of_mem _ hm, hc⟩
      | timeout =>
        obtain ⟨m, e, hm, hc⟩ := (ih N url pid errors).2.1 x (by simpa [monitorExecution] using h)
        exact ⟨m, e, List.mem_cons_of_mem _ hm, hc⟩
      | closed oc =>
        simp only [monitorExecution] at h
        split at h
        · obtain ⟨m, e, hm, hc⟩ := (ih N url pid errors).2.1 x h
          exact ⟨m, e, List.mem_cons_of_mem _ hm, hc⟩
        · simp at h
        · simp at h
      | msg m =>
        simp only [monitorExecution] at h
        split at h
        · simp at h
        · rename_i e hc
          exact ⟨m, e, List.mem_cons_self _ _, hc⟩
        · obtain ⟨m2, e, hm, hc2⟩ := (ih N url pid errors).2.1 x h
          exact ⟨m2, e, List.mem_cons_of_mem _ hm, hc2⟩
    · cases f with
      | binary =>
        obtain ⟨oc, hm, hc⟩ := (ih N url pid errors).2.2 x (by simpa [monitorExecution] using h)
        exact ⟨oc, List.mem_cons_of_mem _ hm, hc⟩
      | badJson =>
        obtain ⟨oc, hm, hc⟩ := (ih N url pid errors).2.2 x (by simpa [monitorExecution] using h)
        exact ⟨oc, List.mem_cons_of_mem _ hm, hc⟩
      | timeout =>
        obtain ⟨oc, hm, hc⟩ := (ih N url pid errors).2.2 x (by simpa [monitorExecution] using h)
        exact ⟨oc, List.mem_cons_of_mem _ hm, hc⟩
      | closed oc =>
        simp only [monitorExecution] at h
        split at h
        · obtain ⟨oc2, hm, hc⟩ := (ih N url pid errors).2.2 x h
          exact ⟨oc2, List.mem_cons_of_mem _ hm, hc⟩
        · rename_i hr
          exact ⟨oc, List.mem_cons_self _ _, by simp [hr]⟩
        · rename_i hr
          exact ⟨oc, List.mem_cons_self _ _, by simp [hr]⟩
      | msg m =>
        simp only [monitorExecution] at h
        split at h
        · simp at h
        · simp at h
        · obtain ⟨oc2, hm, hc⟩ := (ih N url pid errors).2.2 x h
          exact ⟨oc2, List.mem_cons_of_mem _ hm, hc⟩

/-! Helper lemmas about the reconnection loop. -/

theorem reconnectGo_congr (url : String) (oc oc' : Nat → AttemptOutcome) :
    ∀ (fuel i : Nat), (∀ j, i ≤ j → j < i + fuel → oc j = oc' j) →
      reconnectGo url oc fuel i = reconnectGo url oc' fuel i := by
  intro fuel
  induction fuel with
  | zero => intro i _; rfl
  | succ n ih =>
    intro i hagree
    have hi : oc i = oc' i := hagree i (Nat.le_refl i) (by omega)
    simp only [reconnectGo, hi]
    cases oc' i with
    | probeFail => rfl
    | connectOk => rfl
    | connectFail =>
      exact ih (i + 1) (fun j hj1 hj2 => hagree j (by omega) (by omega))

theorem reconnectGo_exhausted (url : String) (oc : Nat → AttemptOutcome) :
    ∀ (fuel i : Nat), (∀ j, i ≤ j → j < i + fuel → oc j = .connectFail) →
      reconnectGo url oc fuel i = .exhausted := by
  intro fuel
  induction fuel with
  | zero => intro i _; rfl
  | succ n ih =>
    intro i hall
    have hi : oc i = .connectFail := hall i (Nat.le_refl i) (by omega)
    simp only [reconnectGo, hi]
    exact ih (i + 1) (fun j hj1 hj2 => hall j (by omega) (by omega))

theorem reconnectGo_probe (url : String) (oc : Nat → AttemptOutcome) :
    ∀ (fuel i k : Nat), i ≤ k → k < i + fuel →
      (∀ j, i ≤ j → j < k → oc j = .connectFail) → oc k = .probeFail →
      reconnectGo url oc fuel i = .unreachable := by
  intro fuel
  induction fuel with
  | zero => intro i k h1 h2 _ _; omega
  | succ n ih =>
    intro i k h1 h2 hfail hk
    by_cases hik : i = k
    · subst hik
      simp only [reconnectGo, hk]
    · have hi : oc i = .connectFail := hfail i (Nat.le_refl i) (by omega)
      simp only [reconnectGo, hi]
      exact ih (i + 1) k (by omega) (by omega) (fun j hj1 hj2 => hfail j (by omega) hj2) hk

theorem reconnectGo_success (url : String) (oc : Nat → AttemptOutcome) :
    ∀ (fuel i k : Nat), i ≤ k → k < i + fuel →
      (∀ j, i ≤ j → j < k → oc j = .connectFail) → oc k = .connectOk →
      reconnectGo url oc fuel i = .ok url := by
  intro fuel
  induction fuel with
  | zero => intro i k h1 h2 _ _; omega
  | succ n ih =>
    intro i k h1 h2 hfail hk
    by_cases hik : i = k
    · subst hik
      simp only [reconnectGo, hk]
    · have hi : oc i = .connectFail := hfail i (Nat.le_refl i) (by omega)
      simp only [reconnectGo, hi]
      exact ih (i + 1) k (by omega) (by omega) (fun j hj1 hj2 => hfail j (by omega) hj2) hk

theorem reconnectGo_ok_url (url : String) (oc : Nat → AttemptOutcome) :
    ∀ (fuel i : Nat) (u : String), reconnectGo url oc fuel i = .ok u → u = url := by
  intro fuel
  induction fuel with
  | zero => intro i u h; simp [reconnectGo] at h
  | succ n ih =>
    intro i u h
    simp only [reconnectGo] at h
    split at h
    · simp at h
    · exact ih (i + 1) u h
    · simp only [ReconnectResult.ok.injEq] at h
      exact h.symm

/-! Helper lemmas about the callback retry loop. -/

theorem fireCallbackGo_delivered (cb : Nat → CallbackAttempt) :
    ∀ (fuel i k : Nat), fireCallbackGo cb fuel i = .delivered k →
      i ≤ k ∧ k < i + fuel ∧ attemptOk (cb k) = true ∧
        ∀ j, i ≤ j → j < k → attemptOk (cb j) = false := by
  intro fuel
  induction fuel with
  | zero => intro i k h; simp [fireCallbackGo] at h
  | succ n ih =>
    intro i k h
    simp only [fireCallbackGo] at h
    split at h
    · rename_i hok
      simp only [CallbackOutcome.delivered.injEq] at h
      subst h
      exact ⟨Nat.le_refl i, by omega, hok, fun j hj1 hj2 => absurd hj1 (by omega)⟩
    · rename_i hnot
      obtain ⟨ha, hb, hc, hd⟩ := ih (i + 1) k h
      refine ⟨by omega, by omega, hc, fun j hj1 hj2 => ?_⟩
      by_cases hji : j = i
      · subst hji
        exact Bool.not_eq_true _ ▸ (by simpa using hnot)
      · exact hd j (by omega) hj2

theorem fireCallbackGo_exhausted_iff (cb : Nat → CallbackAttempt) :
    ∀ (fuel i : Nat), fireCallbackGo cb fuel i = .exhausted ↔
      ∀ j, i ≤ j → j < i + fuel → attemptOk (cb j) = false := by
  intro fuel
  induction fuel with
  | zero =>
    intro i
    simp [fireCallbackGo]
    omega
  | succ n ih =>
    intro i
    simp only [fireCallbackGo]
    constructor
    · intro h
      split at h
      · simp at h
      · rename_i hnot
        intro j hj1 hj2
        by_cases hji : j = i
        · subst hji
          simpa using hnot
        · exact (ih (i + 1)).1 h j (by omega) (by omega)
    · intro hall
      have hi : attemptOk (cb i) = false := hall i (Nat.le_refl i) (by omega)
      rw [if_neg (by simp [hi])]
      exact (ih (i + 1)).2 (fun j hj1 hj2 => hall j (by omega) (by omega))

theorem fireCallbackGo_congr (cb cb' : Nat → CallbackAttempt) :
    ∀ (fuel i : Nat), (∀ j, i ≤ j → j < i + fuel → cb j = cb' j) →
      fireCallbackGo cb fuel i = fireCallbackGo cb' fuel i := by
  intro fuel
  induction fuel with
  | zero => intro i _; rfl
  | succ n ih =>
    intro i hagree
    have hi : cb i = cb' i := hagree i (Nat.le_refl i) (by omega)
    simp only [fireCallbackGo, hi]
    split
    · rfl
    · exact ih (i + 1) (fun j hj1 hj2 => hagree j (by omega) (by omega))

/-! Helper lemmas about base64 encoding. -/

theorem charSextet_sextetChar_fin : ∀ s : Fin 64, charSextet (sextetChar s.val) = some s.val := by decide

theorem charSextet_sextetChar (s : Nat) (h : s < 64) : charSextet (sextetChar s) = some s :=
  charSextet_sextetChar_fin ⟨s, h⟩

theorem sextetChar_ne_pad_fin : ∀ s : Fin 64, sextetChar s.val ≠ '=' := by decide

theorem sextetChar_ne_pad (s : Nat) (h : s < 64) : sextetChar s ≠ '=' :=
  sextetChar_ne_pad_fin ⟨s, h⟩

theorem b64_roundtrip (bs : List Nat) (hb : ∀ x ∈ bs, x < 256) :
    b64decodeChars (b64encodeBytes bs) = some bs := by
  induction bs using b64encodeBytes.induct with
  | case1 a b c rest ih =>
    have ha : a < 256 := hb a (by simp)
    have hbb : b < 256 := hb b (by simp)
    have hc : c < 256 := hb c (by simp)
    have ihr := ih (fun x hx => hb x (by simp [hx]))
    rw [b64encodeBytes, b64decodeChars]
    rw [if_neg (fun hcontra => sextetChar_ne_pad (b % 16 * 4 + c / 64) (by omega) hcontra.1)]
    rw [if_neg (fun hcontra => sextetChar_ne_pad (c % 64) (by omega) hcontra.1)]
    rw [charSextet_sextetChar (a / 4) (by omega),
        charSextet_sextetChar (a % 4 * 16 + b / 16) (by omega),
        charSextet_sextetChar (b % 16 * 4 + c / 64) (by omega),
        charSextet_sextetChar (c % 64) (by omega), ihr]
    simp only [Option.map_some', Option.some.injEq, List.cons.injEq]
    exact ⟨by omega, by omega, by omega, trivial⟩
  | case2 a b =>
    have ha : a < 256 := hb a (by simp)
    have hbb : b < 256 := hb b (by simp)
    rw [b64encodeBytes, b64decodeChars]
    rw [if_neg (fun hcontra => sextetChar_ne_pad (b % 16 * 4) (by omega) hcontra.1)]
    rw [if_pos ⟨rfl, rfl⟩]
    rw [charSextet_sextetChar (a / 4) (by omega),
        charSextet_sextetChar (a % 4 * 16 + b / 16) (by omega),
        charSextet_sextetChar (b % 16 * 4) (by omega)]
    simp only [Option.some.injEq, List.cons.injEq]
    exact ⟨by omega, by omega, trivial⟩
  | case3 a =>
    have ha : a < 256 := hb a (by simp)
    rw [b64encodeBytes, b64decodeChars]
    rw [if_pos ⟨rfl, rfl, rfl⟩]
    rw [charSextet_sextetChar (a / 4) (by omega),
        charSextet_sextetChar (a % 4 * 16) (by omega)]
    simp only [Option.some.injEq, List.cons.injEq]
    exact ⟨by omega, trivial⟩
  | case4 => rfl

/-! Concrete sample events used by the witnesses. -/

/-- Payload of the sample execution error event. -/
def sampleErrData : MsgData := ⟨none, some "P1", some "3", some "KSampler", some "OOM"⟩

/-- Sample matching `execution_error` event. -/
def sampleErrMsg : Msg := ⟨some "execution_error", some sampleErrData⟩

/-- Sample matching completion event (`node` null, matching prompt). -/
def sampleDoneMsg : Msg := ⟨some "executing", some ⟨none, some "P1", none, none, none⟩⟩

/-- Sample progress event (non-empty `node`). -/
def sampleProgressMsg : Msg := ⟨some "executing", some ⟨some "3", some "P1", none, none, none⟩⟩

/-- Sample event with a non-matching prompt id. -/
def sampleOtherMsg : Msg := ⟨some "executing", some ⟨none, some "P2", none, none, none⟩⟩

/-- C1: the execution monitor signals successful completion exactly on an
"executing" event whose `data.node` is null/absent and whose
`data.prompt_id` equals the job's execution handle; an "executing" event
with a non-empty node field never triggers completion (it is skipped),
for every well-formed prompt id. -/
theorem executing_completion_spec (pid : String) (m : Msg) :
    (classifyMsg pid m = .complete ↔
      m.type = some "executing" ∧ (dataOf m).node = none ∧
        (dataOf m).prompt_id = some pid)
    ∧ (∀ (N : Nat) (url : String) (errors : List String) (nv : String) (rest : List Frame),
        m.type = some "executing" → (dataOf m).node = some nv →
        monitorExecution N url pid errors (.msg m :: rest) =
          monitorExecution N url pid errors rest)
    ∧ (∀ (N : Nat) (url : String) (errors : List String) (rest : List Frame),
        classifyMsg pid m = .complete →
        monitorExecution N url pid errors (.msg m :: rest) = .done true errors) := by
  refine ⟨classify_complete_iff pid m, ?_, ?_⟩
  · intro N url errors nv rest h1 h2
    exact monitor_skip_msg N url pid errors m rest (classify_skip_of_node pid m nv h1 h2)
  · intro N url errors rest h
    simp [monitorExecution, h]

theorem executing_completion_spec_witness :
    monitorExecution 5 "u" "P1" [] [Frame.msg sampleProgressMsg] = MonitorResult.pending :=
  ((executing_completion_spec "P1" sampleProgressMsg).2.1 5 "u" [] "3" [] rfl rfl).trans rfl

/-- C2: a matching "execution_error" event makes the monitor record
exactly one error entry of the form
"Node {node_id} ({node_type}): {exception_message}" and return
`(false, errors)` at once, independently of any further frames in the
stream. -/
theorem error_event_terminates (N : Nat) (url pid : String) (m : Msg)
    (h1 : m.type = some "execution_error")
    (h2 : (dataOf m).prompt_id = some pid) :
    ∀ rest : List Frame,
      monitorExecution N url pid [] (.msg m :: rest) =
        .done false ["Node " ++ pyStr (dataOf m).node_id ++ " (" ++
          pyStr (dataOf m).node_type ++ "): " ++ pyStr (dataOf m).exception_message] := by
  intro rest
  have hc := classify_of_error pid m h1 h2
  simp [monitorExecution, hc, errEntry]

theorem error_event_terminates_witness :
    monitorExecution 5 "u" "P1" [] [Frame.msg sampleErrMsg, Frame.msg sampleDoneMsg] =
      .done false ["Node 3 (KSampler): OOM"] :=
  (error_event_terminates 5 "u" "P1" sampleErrMsg rfl rfl [Frame.msg sampleDoneMsg]).trans
    (by decide)

/-- C3: the reconnection loop consults at most the first `N` attempt
outcomes; `N` consecutive connect failures raise the terminal
connection-exhausted failure; a probe failure (with only connect
failures before it) raises the connection-closed failure immediately; a
successful attempt returns a fresh connection on the same URL; and the
monitor resumes on reconnect success while a raised reconnect failure
terminates monitoring with the corresponding connection-closed error. -/
theorem reconnect_policy (N : Nat) (url : String) (oc oc' : Nat → AttemptOutcome) :
    ((∀ i, i < N → oc i = oc' i) →
      reconnectWebsocket N url oc = reconnectWebsocket N url oc')
    ∧ ((∀ i, i < N → oc i = .connectFail) → reconnectWebsocket N url oc = .exhausted)
    ∧ (∀ k, k < N → (∀ j, j < k → oc j = .connectFail) → oc k = .probeFail →
        reconnectWebsocket N url oc = .unreachable)
    ∧ (∀ k, k < N → (∀ j, j < k → oc j = .connectFail) → oc k = .connectOk →
        reconnectWebsocket N url oc = .ok url)
    ∧ (∀ u, reconnectWebsocket N url oc = .ok u → u = url)
    ∧ (∀ (pid : String) (errors : List String) (rest : List Frame),
        reconnectWebsocket N url oc = .ok url →
        monitorExecution N url pid errors (Frame.closed oc :: rest) =
          monitorExecution N url pid errors rest)
    ∧ (∀ (pid : String) (errors : List String) (rest : List Frame),
        reconnectWebsocket N url oc = .unreachable →
        monitorExecution N url pid errors (Frame.closed oc :: rest) =
          .connClosed unreachableMsg)
    ∧ (∀ (pid : String) (errors : List String) (rest : List Frame),
        reconnectWebsocket N url oc = .exhausted →
        monitorExecution N url pid errors (Frame.closed oc :: rest) =
          .connClosed (exhaustedMsg N)) := by
  refine ⟨?_, ?_, ?_, ?_, ?_, ?_, ?_, ?_⟩
  · intro h
    exact reconnectGo_congr url oc oc' N 0 (fun j _ hj2 => h j (by omega))
  · intro h
    exact reconnectGo_exhausted url oc N 0 (fun j _ hj2 => h j (by omega))
  · intro k hk hfail hp
    exact reconnectGo_probe url oc N 0 k (by omega) (by omega)
      (fun j _ hj2 => hfail j hj2) hp
  · intro k hk hfail hs
    exact reconnectGo_success url oc N 0 k (by omega) (by omega)
      (fun j _ hj2 => hfail j hj2) hs
  · intro u h
    exact reconnectGo_ok_url url oc N 0 u h
  · intro pid errors rest h
    simp [monitorExecution, h]
  · intro pid errors rest h
    simp [monitorExecution, h]
  · intro pid errors rest h
    simp [monitorExecution, h]

theorem reconnect_policy_witness :
    reconnectWebsocket 5 "u" (fun _ => AttemptOutcome.connectFail) = ReconnectResult.exhausted :=
  (reconnect_policy 5 "u" (fun _ => .connectFail) (fun _ => .connectFail)).2.1 (fun _ _ => rfl)

/-- C8: frames with a non-matching correlation id, undecodable text and
non-string frames are skipped without terminating monitoring; and
monitoring only terminates by a matching completion event, a matching
error event, or a failed reconnection. -/
theorem monitor_ignores_nonmatching :
    (∀ (N : Nat) (url pid : String) (errors : List String) (m : Msg) (rest : List Frame),
        (dataOf m).prompt_id ≠ some pid →
        monitorExecution N url pid errors (.msg m :: rest) =
          monitorExecution N url pid errors rest)
    ∧ (∀ (N : Nat) (url pid : String) (errors : List String) (rest : List Frame),
        monitorExecution N url pid errors (.badJson :: rest) =
          monitorExecution N url pid errors rest)
    ∧ (∀ (N : Nat) (url pid : String) (errors : List String) (rest : List Frame),
        monitorExecution N url pid errors (.binary :: rest) =
          monitorExecution N url pid errors rest)
    ∧ (∀ (N : Nat) (url pid : String) (errors errs : List String) (frames : List Frame),
        monitorExecution N url pid errors frames = .done true errs →
        ∃ m, Frame.msg m ∈ frames ∧ classifyMsg pid m = .complete)
    ∧ (∀ (N : Nat) (url pid : String) (errors errs : List String) (frames : List Frame),
        monitorExecution N url pid errors frames = .done false errs →
        ∃ m e, Frame.msg m ∈ frames ∧ classifyMsg pid m = .failJob e)
    ∧ (∀ (N : Nat) (url pid s : String) (errors : List String) (frames : List Frame),
        monitorExecution N url pid errors frames = .connClosed s →
        ∃ oc, Frame.closed oc ∈ frames ∧
          reconnectWebsocket N url oc ≠ ReconnectResult.ok url) := by
  refine ⟨?_, ?_, ?_, ?_, ?_, ?_⟩
  · intro N url pid errors m rest h
    exact monitor_skip_msg N url pid errors m rest (classify_skip_of_prompt_ne pid m h)
  · intro N url pid errors rest
    rfl
  · intro N url pid errors rest
    rfl
  · intro N url pid errors errs frames h
    exact (monitor_result_origin frames N url pid errors).1 errs h
  · intro N url pid errors errs frames h
    exact (monitor_result_origin frames N url pid errors).2.1 errs h
  · intro N url pid s errors frames h
    exact (monitor_result_origin frames N url pid errors).2.2 s h

theorem monitor_ignores_nonmatching_witness :
    monitorExecution 5 "u" "P1" [] [Frame.msg sampleOtherMsg] = MonitorResult.pending :=
  (monitor_ignores_nonmatching.1 5 "u" "P1" [] sampleOtherMsg [] (by decide)).trans rfl

/-- C10: `_monitor_execution` never returns `(False, [])`: every normal
`(success, errors)` return with `success = False` carries at least one
error entry, so the guard of the "Execution monitoring exited
unexpectedly" branch of `_execute_job` is never satisfied by a monitor
return. -/
theorem monitor_never_false_empty :
    (∀ (N : Nat) (url pid : String) (errors errs : List String) (frames : List Frame),
        monitorExecution N url pid errors frames = .done false errs → errs ≠ [])
    ∧ (∀ (N : Nat) (url pid : String) (frames : List Frame),
        monitorExecution N url pid [] frames ≠ .done false []) := by
  constructor
  · intro N url pid errors errs frames h
    exact monitor_done_false_ne_nil frames N url pid errors errs h
  · intro N url pid frames h
    exact monitor_done_false_ne_nil frames N url pid [] [] h rfl

theorem monitor_never_false_empty_witness :
    (["Node 3 (KSampler): OOM"] : List String) ≠ [] :=
  monitor_never_false_empty.1 5 "u" "P1" [] ["Node 3 (KSampler): OOM"]
    [Frame.msg sampleErrMsg] (by decide)

/-! Helper lemmas about the staging loops. -/

theorem uploadImagesErrors_filterMap (items : List StagedItem) :
    uploadImagesErrors items = items.filterMap
      (fun it => it.outcome.map (fun e => "Failed to upload " ++ it.name ++ ": " ++ e)) := by
  induction items with
  | nil => rfl
  | cons it rest ih =>
    cases h : it.outcome <;> simp [uploadImagesErrors, h, ih]

theorem uploadImagesErrors_nil_iff (items : List StagedItem) :
    uploadImagesErrors items = [] ↔ ∀ it ∈ items, it.outcome = none := by
  induction items with
  | nil => simp [uploadImagesErrors]
  | cons it rest ih =>
    cases h : it.outcome <;> simp [uploadImagesErrors, h, ih]

theorem downloadUploadErrors_filterMap (items : List StagedItem) :
    downloadUploadErrors items = items.filterMap
      (fun it => it.outcome.map (fun e => "Failed to process " ++ it.name ++ ": " ++ e)) := by
  induction items with
  | nil => rfl
  | cons it rest ih =>
    cases h : it.outcome <;> simp [downloadUploadErrors, h, ih]

theorem downloadUploadErrors_nil_iff (items : List StagedItem) :
    downloadUploadErrors items = [] ↔ ∀ it ∈ items, it.outcome = none := by
  induction items with
  | nil => simp [downloadUploadErrors]
  | cons it rest ih =>
    cases h : it.outcome <;> simp [downloadUploadErrors, h, ih]

/-- Sample request whose single inline image fails to upload. -/
def sampleFailReq : RunReq := ⟨some [⟨"b.png", some "boom"⟩], none, none⟩

/-- Sample environment: engine up, submission yields prompt "P1", the
stream delivers the matching completion event, the history has an empty
output manifest. -/
def sampleEnv : ExecEnv :=
  ⟨true, "cid", .ok (some "P1"), [Frame.msg sampleDoneMsg], .ok (some [])⟩

/-- C6: `_fire_callback` makes at most 3 attempts, stops at the first
response with status below the error threshold, is a total function of
the first three attempt outcomes (it never raises after exhaustion),
and the callback outcome never feeds back into the job's terminal
result; `_run_job` fires the callback exactly once per computed terminal
result. -/
theorem callback_policy :
    (∀ (cb : Nat → CallbackAttempt) (i : Nat), fireCallback cb = .delivered i →
      i < 3 ∧ attemptOk (cb i) = true ∧ ∀ j, j < i → attemptOk (cb j) = false)
    ∧ (∀ cb : Nat → CallbackAttempt,
        fireCallback cb = .exhausted ↔ ∀ i, i < 3 → attemptOk (cb i) = false)
    ∧ (∀ cb cb' : Nat → CallbackAttempt, (∀ i, i < 3 → cb i = cb' i) →
        fireCallback cb = fireCallback cb')
    ∧ (∀ (N : Nat) (req : RunReq) (env : ExecEnv) (cb cb' : Nat → CallbackAttempt),
        (runJob N req env cb).1 = (runJob N req env cb').1)
    ∧ (∀ (N : Nat) (req : RunReq) (env : ExecEnv) (cb : Nat → CallbackAttempt)
         (r : JobResult), executeJob N req env = some r →
        runJob N req env cb = (some r, some (fireCallback cb))) := by
  refine ⟨?_, ?_, ?_, ?_, ?_⟩
  · intro cb i h
    obtain ⟨h1, h2, h3, h4⟩ := fireCallbackGo_delivered cb 3 0 i h
    exact ⟨by omega, h3, fun j hj => h4 j (by omega) hj⟩
  · intro cb
    have hiff := fireCallbackGo_exhausted_iff cb 3 0
    constructor
    · intro h i hi
      exact hiff.1 h i (by omega) (by omega)
    · intro h
      exact hiff.2 (fun j _ hj => h j (by omega))
  · intro cb cb' h
    exact fireCallbackGo_congr cb cb' 3 0 (fun j _ hj => h j (by omega))
  · intro N req env cb cb'
    unfold runJob
    cases executeJob N req env <;> rfl
  · intro N req env cb r h
    unfold runJob
    rw [h]

theorem callback_policy_witness :
    runJob 5 ⟨none, none, none⟩ sampleEnv (fun _ => CallbackAttempt.response 200) =
      (some ⟨"completed", none, none, some [], none⟩, some (CallbackOutcome.delivered 0)) :=
  (callback_policy.2.2.2.2 5 ⟨none, none, none⟩ sampleEnv (fun _ => .response 200)
    ⟨"completed", none, none, some [], none⟩ (by decide)).trans (by decide)

/-- C7: each staging loop records one error entry per failed item (and
only failed items) while continuing past failures, returns error status
exactly when at least one item failed, and a failed staging stage fails
the job with exactly those per-item errors as details. -/
theorem staging_collects_all_failures :
    (∀ items, uploadImagesErrors items = items.filterMap
        (fun it => it.outcome.map (fun e => "Failed to upload " ++ it.name ++ ": " ++ e)))
    ∧ (∀ items, (uploadImages items).status = "error" ↔ ∃ it ∈ items, it.outcome ≠ none)
    ∧ (∀ items, downloadUploadErrors items = items.filterMap
        (fun it => it.outcome.map (fun e => "Failed to process " ++ it.name ++ ": " ++ e)))
    ∧ (∀ items, (downloadAndUploadFiles items).status = "error" ↔
        ∃ it ∈ items, it.outcome ≠ none)
    ∧ (∀ (N : Nat) (req : RunReq) (env : ExecEnv) (imgs : List StagedItem),
        req.images = some imgs → imgs ≠ [] → env.serverUp = true →
        (uploadImages imgs).status = "error" →
        executeJob N req env =
          some (failedWith "Image upload failed" (uploadImages imgs).details))
    ∧ (∀ (N : Nat) (req : RunReq) (env : ExecEnv) (dls : List StagedItem),
        req.download_urls = some dls → dls ≠ [] → env.serverUp = true →
        ¬(truthy req.images = true ∧
            (uploadImages (req.images.getD [])).status = "error") →
        (downloadAndUploadFiles dls).status = "error" →
        executeJob N req env =
          some (failedWith "File download/upload failed"
            (downloadAndUploadFiles dls).details)) := by
  refine ⟨uploadImagesErrors_filterMap, ?_, downloadUploadErrors_filterMap, ?_, ?_, ?_⟩
  · intro items
    simp only [uploadImages]
    split_ifs with he
    · simp only [String.reduceEq, false_iff]
      intro ⟨it, hmem, hne⟩
      exact hne ((uploadImagesErrors_nil_iff items).1 he it hmem)
    · simp only [true_iff]
      by_contra hno
      push_neg at hno
      exact he ((uploadImagesErrors_nil_iff items).2 (fun it hm => hno it hm))
  · intro items
    simp only [downloadAndUploadFiles]
    split_ifs with he
    · simp only [String.reduceEq, false_iff]
      intro ⟨it, hmem, hne⟩
      exact hne ((downloadUploadErrors_nil_iff items).1 he it hmem)
    · simp only [true_iff]
      by_contra hno
      push_neg at hno
      exact he ((downloadUploadErrors_nil_iff items).2 (fun it hm => hno it hm))
  · intro N req env imgs himg hne hup hst
    cases imgs with
    | nil => exact absurd rfl hne
    | cons a l => simp [executeJob, truthy, hup, himg, hst]
  · intro N req env dls hdl hne hup hno hst
    cases dls with
    | nil => exact absurd rfl hne
    | cons a l =>
      simp [executeJob, truthy, hup, hdl, hst]
      intro h1 h2
      exact absurd ⟨by simpa [truthy] using h1, h2⟩ hno

theorem staging_collects_all_failures_witness :
    executeJob 5 sampleFailReq sampleEnv =
      some (failedWith "Image upload failed" ["Failed to upload b.png: boom"]) :=
  (staging_collects_all_failures.2.2.2.2.1 5 sampleFailReq sampleEnv
    [⟨"b.png", some "boom"⟩] rfl (by decide) rfl (by decide)).trans (by decide)

/-! Helper lemmas about output collection. -/

theorem processFileInfo_classified (t : List UploadTarget) (fi : FileInfo) :
    ∀ rec ∈ (processFileInfo t fi).1,
      (rec.rtype = "uploaded" ∧ rec.data = none) ∨
        (rec.rtype = "base64" ∧ rec.data ≠ none) := by
  intro rec hrec
  unfold processFileInfo at hrec
  repeat' split at hrec
  all_goals simp_all

theorem processFileList_classified (t : List UploadTarget) (l : List FileInfo) :
    ∀ rec ∈ (processFileList t l).1,
      (rec.rtype = "uploaded" ∧ rec.data = none) ∨
        (rec.rtype = "base64" ∧ rec.data ≠ none) := by
  induction l with
  | nil => intro rec h; simp [processFileList] at h
  | cons fi rest ih =>
    intro rec h
    simp only [processFileList, List.mem_append] at h
    cases h with
    | inl h => exact processFileInfo_classified t fi rec h
    | inr h => exact ih rec h

theorem processNodeOutput_classified (t : List UploadTarget) (no : NodeOutput) :
    ∀ rec ∈ (processNodeOutput t no).1,
      (rec.rtype = "uploaded" ∧ rec.data = none) ∨
        (rec.rtype = "base64" ∧ rec.data ≠ none) := by
  intro rec h
  simp only [processNodeOutput, List.mem_append] at h
  rcases h with (h | h) | h
  · exact processFileList_classified t no.videos rec h
  · exact processFileList_classified t no.gifs rec h
  · exact processFileList_classified t no.images rec h

theorem processNodeList_classified (t : List UploadTarget)
    (outs : List (String × NodeOutput)) :
    ∀ rec ∈ (processNodeList t outs).1,
      (rec.rtype = "uploaded" ∧ rec.data = none) ∨
        (rec.rtype = "base64" ∧ rec.data ≠ none) := by
  induction outs with
  | nil => intro rec h; simp [processNodeList] at h
  | cons p rest ih =>
    intro rec h
    rw [show processNodeList t (p :: rest) =
      ((processNodeOutput t p.2).1 ++ (processNodeList t rest).1,
       (processNodeOutput t p.2).2 ++ (processNodeList t rest).2) from rfl] at h
    simp only [List.mem_append] at h
    cases h with
    | inl h => exact processNodeOutput_classified t p.2 rec h
    | inr h => exact ih rec h

/-- C5: an artifact of kind "temp" contributes nothing to output
collection; an artifact whose filename has a matching upload target
with a truthy (non-empty) URL and whose upload succeeds is recorded as
`uploaded` with no inline bytes; an artifact with no matching target —
including a target whose URL is the empty string, which the
`if upload_url:` truthiness test treats as absent — is recorded inline
with the base64 encoding of the fetched bytes, which decodes back to
exactly those bytes; and every record of the result is classified as
uploaded (no data) or base64 (with data), never both. -/
theorem output_classification :
    (∀ (t : List UploadTarget) (fi : FileInfo), fi.ftype = some "temp" →
        processFileInfo t fi = ([], []))
    ∧ (∀ (t : List UploadTarget) (fi : FileInfo) (fn : String) (bytes : List Nat)
         (u : String), fi.filename = some fn → fn ≠ "" → fi.ftype ≠ some "temp" →
        fi.fetchResult = .ok bytes → uploadMapGet t fn = some u → u ≠ "" →
        fi.uploadResult = none →
        processFileInfo t fi = ([⟨fn, "uploaded", none⟩], []))
    ∧ (∀ (t : List UploadTarget) (fi : FileInfo) (fn : String) (bytes : List Nat),
        fi.filename = some fn → fn ≠ "" → fi.ftype ≠ some "temp" →
        fi.fetchResult = .ok bytes → uploadMapGet t fn = none →
        processFileInfo t fi = ([⟨fn, "base64", some (b64encodeBytes bytes)⟩], []))
    ∧ (∀ (t : List UploadTarget) (fi : FileInfo) (fn : String) (bytes : List Nat),
        fi.filename = some fn → fn ≠ "" → fi.ftype ≠ some "temp" →
        fi.fetchResult = .ok bytes → uploadMapGet t fn = some "" →
        processFileInfo t fi = ([⟨fn, "base64", some (b64encodeBytes bytes)⟩], []))
    ∧ (∀ bytes : List Nat, (∀ x ∈ bytes, x < 256) →
        b64decodeChars (b64encodeBytes bytes) = some bytes)
    ∧ (∀ (outs : List (String × NodeOutput)) (urls : Option (List UploadTarget))
         (rec : OutputRecord), rec ∈ (processOutputs outs urls).1 →
        (rec.rtype = "uploaded" ∧ rec.data = none) ∨
          (rec.rtype = "base64" ∧ rec.data ≠ none)) := by
  refine ⟨?_, ?_, ?_, ?_, b64_roundtrip, ?_⟩
  · intro t fi h
    cases hf : fi.filename <;> simp [processFileInfo, hf, h]
  · intro t fi fn bytes u hfn hne hft hfetch hmap hu hok
    simp [processFileInfo, hfn, hne, hft, hfetch, hmap, hu, hok]
  · intro t fi fn bytes hfn hne hft hfetch hmap
    simp [processFileInfo, hfn, hne, hft, hfetch, hmap]
  · intro t fi fn bytes hfn hne hft hfetch hmap
    simp [processFileInfo, hfn, hne, hft, hfetch, hmap]
  · intro outs urls rec h
    exact processNodeList_classified (urls.getD []) outs rec h

theorem output_classification_witness :
    b64decodeChars (b64encodeBytes [77, 97, 110]) = some [77, 97, 110] :=
  output_classification.2.2.2.2.1 [77, 97, 110] (by decide)

/-- Sample failing environment: the stream delivers the matching
execution error, the history has an empty output manifest. -/
def sampleErrEnv : ExecEnv :=
  ⟨true, "cid", .ok (some "P1"), [Frame.msg sampleErrMsg], .ok (some [])⟩

/-- Sample output manifest entry: one non-temp image whose bytes fetch
successfully and which matches no upload target. -/
def sampleFile : FileInfo := ⟨some "out.png", "", some "output", .ok [1, 2, 3], none⟩

/-- Sample environment where the stream delivers the matching execution
error but the history manifest still lists one collectable artifact. -/
def sampleErrOutEnv : ExecEnv :=
  ⟨true, "cid", .ok (some "P1"), [Frame.msg sampleErrMsg],
   .ok (some [("9", ⟨[], [], [sampleFile]⟩)])⟩

/-- C4: every terminal result with status "failed" carries an error
description; a "completed" result with zero artifacts never carries
warnings; and when output collection yields zero artifacts while at
least one execution or output error was recorded, the job fails with
"Job produced no output" and details equal to all collected errors. -/
theorem failed_result_invariant :
    (∀ (N : Nat) (req : RunReq) (env : ExecEnv) (r : JobResult),
        executeJob N req env = some r → r.status = "failed" → ∃ e, r.error = some e)
    ∧ (∀ (N : Nat) (req : RunReq) (env : ExecEnv) (r : JobResult),
        executeJob N req env = some r → r.status = "completed" →
        r.images = some [] → r.warnings = none)
    ∧ (∀ (N : Nat) (req : RunReq) (env : ExecEnv) (pid : String) (b : Bool)
         (errs es : List String) (outs : List (String × NodeOutput)),
        env.serverUp = true →
        ¬(truthy req.images = true ∧
            (uploadImages (req.images.getD [])).status = "error") →
        ¬(truthy req.download_urls = true ∧
            (downloadAndUploadFiles (req.download_urls.getD [])).status = "error") →
        env.queueResult = .ok (some pid) → pid ≠ "" →
        monitorExecution N (wsUrlOf env.clientId) pid [] env.frames = .done b errs →
        ¬(b = false ∧ errs = []) →
        env.historyOutputs = .ok (some outs) →
        processOutputs outs req.upload_urls = ([], es) →
        errs ++ es ≠ [] →
        executeJob N req env =
          some (failedWith "Job produced no output" (errs ++ es))) := by
  refine ⟨?_, ?_, ?_⟩
  · intro N req env r h hst
    unfold executeJob at h
    repeat' split at h
    all_goals (try exact Option.noConfusion h)
    all_goals rw [Option.some.injEq] at h
    all_goals subst h
    all_goals simp_all [failedResult, failedWith]
  · intro N req env r h hst himg
    unfold executeJob at h
    repeat' split at h
    all_goals (try exact Option.noConfusion h)
    all_goals rw [Option.some.injEq] at h
    all_goals subst h
    all_goals simp_all [failedResult, failedWith]
  · intro N req env pid b errs es outs h1 h2 h3 h4 h5 h6 h7 h8 h9 h10
    simp [executeJob, h1, h2, h3, h4, h5, h6, h7, h8, h9, h10]

theorem failed_result_invariant_witness :
    executeJob 5 ⟨none, none, none⟩ sampleErrEnv =
      some (failedWith "Job produced no output" ["Node 3 (KSampler): OOM"]) :=
  (failed_result_invariant.2.2 5 ⟨none, none, none⟩ sampleErrEnv "P1" false
    ["Node 3 (KSampler): OOM"] [] [] rfl (by decide) (by decide) rfl (by decide)
    (by decide) (by decide) rfl (by decide) (by decide)).trans (by decide)

/-- C9: when monitoring ends on a matching execution error but output
collection still yields at least one artifact, the terminal result is
"completed" with those artifacts, and the execution error entries (plus
any output errors) appear under the warnings key. -/
theorem error_with_outputs_completed :
    ∀ (N : Nat) (req : RunReq) (env : ExecEnv) (pid : String)
      (errs es : List String) (arts : List OutputRecord)
      (outs : List (String × NodeOutput)),
      env.serverUp = true →
      ¬(truthy req.images = true ∧
          (uploadImages (req.images.getD [])).status = "error") →
      ¬(truthy req.download_urls = true ∧
          (downloadAndUploadFiles (req.download_urls.getD [])).status = "error") →
      env.queueResult = .ok (some pid) → pid ≠ "" →
      monitorExecution N (wsUrlOf env.clientId) pid [] env.frames = .done false errs →
      errs ≠ [] →
      env.historyOutputs = .ok (some outs) →
      processOutputs outs req.upload_urls = (arts, es) →
      arts ≠ [] →
      executeJob N req env =
        some ⟨"completed", none, none, some arts, some (errs ++ es)⟩ := by
  intro N req env pid errs es arts outs h1 h2 h3 h4 h5 h6 h7 h8 h9 h10
  simp [executeJob, h1, h2, h3, h4, h5, h6, h7, h8, h9, h10]

theorem error_with_outputs_completed_witness :
    executeJob 5 ⟨none, none, none⟩ sampleErrOutEnv =
      some ⟨"completed", none, none,
        some [⟨"out.png", "base64", some (b64encodeBytes [1, 2, 3])⟩],
        some ["Node 3 (KSampler): OOM"]⟩ :=
  (error_with_outputs_completed 5 ⟨none, none, none⟩ sampleErrOutEnv "P1"
    ["Node 3 (KSampler): OOM"] [] [⟨"out.png", "base64", some (b64encodeBytes [1, 2, 3])⟩]
    [("9", ⟨[], [], [sampleFile]⟩)] rfl (by decide) (by decide) rfl (by decide)
    (by decide) (by decide) rfl (by decide) (by decide)).trans (by decide)

end Sidecar
